import Mathlib

/-!
Verification of the Todolist_Backend route layer (`src/routes/main.js`).

The five Express route handlers are embedded as pure functions over an
explicit store state.  The repository (`dataSource.getRepository(Task)`)
and the Task entity schema live in files not present here
(`src/entities/task.js`, `src/dataSource.js`); they are modelled from the
specification, sections 3 and 4.2.  Each handler is translated statement
by statement; a handler returns the list of responses it sent (a send is
any `res.json` / `res.status(..).json` call), so the early `return` after
a 404 is visible in the model, together with the store state left behind.
-/

namespace Todo

/-- Modelled from the spec: the Task entity (`src/entities/task.js` is not
in the sources).  Spec section 3: `id` integer auto-generated primary key,
`title` and `description` required text, `dueDate` optional timestamp
(kept as a string here), `isFinished` boolean defaulting to `false`. -/
structure Task where
  id : Nat
  title : String
  description : String
  dueDate : Option String
  isFinished : Bool
  deriving Repr, DecidableEq

/-- Modelled from the spec: the relational store behind the repository
(`src/dataSource.js` is not in the sources).  A table of task rows plus
the auto-increment counter the store uses to assign fresh `id`s. -/
structure Store where
  tasks : List Task
  nextId : Nat
  deriving Repr, DecidableEq

/-- Modelled from the spec: `find()` returns all tasks in store order
(spec section 4.2). -/
def Store.find (s : Store) : List Task :=
  s.tasks

/-- Modelled from the spec: `findOne({where: {id}})` returns the single
task matching `id` or the "not found" sentinel (spec section 4.2);
`none` models the falsy sentinel. -/
def Store.findOne (s : Store) (i : Nat) : Option Task :=
  s.tasks.find? (fun t => t.id == i)

/-- The fields of a POST `/` request body that the handler reads, plus the
fields a client may also send (`id`, `isFinished`) which the handler never
reads (`src/routes/main.js` lines 97-101 list only `title`, `description`,
`dueDate`). -/
structure PostBody where
  title : String
  description : String
  dueDate : Option String
  bodyId : Option Nat
  bodyIsFinished : Option Bool
  deriving Repr, DecidableEq

/-- The in-memory record built by `repository.create({title, description,
dueDate})` (`src/routes/main.js` lines 97-101): exactly the three listed
fields of the body, nothing else. -/
structure Record where
  title : String
  description : String
  dueDate : Option String
  deriving Repr, DecidableEq

/-- `repository.create` as called by the POST handler: builds the record
from `req.body.title`, `req.body.description`, `req.body.dueDate` only. -/
def Record.create (b : PostBody) : Record :=
  { title := b.title, description := b.description, dueDate := b.dueDate }

/-- Modelled from the spec: `save(record)` persists the record and returns
it with the store-assigned `id` (spec section 4.2); the schema default
`isFinished = false` applies (spec section 3). -/
def Store.save (s : Store) (r : Record) : Task × Store :=
  let t : Task :=
    { id := s.nextId, title := r.title, description := r.description,
      dueDate := r.dueDate, isFinished := false }
  (t, { tasks := s.tasks ++ [t], nextId := s.nextId + 1 })

/-- The PATCH `/:id` request body as the handler forwards it to
`repository.update` (`src/routes/main.js` lines 202-207): each of the four
fields is `undefined` (`none`) when the client did not supply it. -/
structure PatchBody where
  title : Option String
  description : Option String
  dueDate : Option String
  isFinished : Option Bool
  deriving Repr, DecidableEq

/-- Modelled from the spec: how `update` applies the partial fields to one
row — supplied fields overwrite, `undefined` fields are left unchanged
(spec sections 3 and 4.2: "partial update (any subset of `title`,
`description`, `dueDate`, `isFinished`)"). -/
def Task.applyPatch (t : Task) (p : PatchBody) : Task :=
  { t with
    title := p.title.getD t.title
    description := p.description.getD t.description
    dueDate := match p.dueDate with
      | some d => some d
      | none => t.dueDate
    isFinished := p.isFinished.getD t.isFinished }

/-- The result object of `repository.update`, carrying the affected-row
count the handler inspects (`result.affected`). -/
structure UpdateResult where
  affected : Nat
  deriving Repr, DecidableEq

/-- The result object of `repository.delete`, carrying the affected-row
count the handler inspects (`result.affected`). -/
structure DeleteResult where
  affected : Nat
  deriving Repr, DecidableEq

/-- Modelled from the spec: `update({id}, fields)` applies the partial
fields to the row matching `id` and returns the affected-row count
(spec section 4.2). -/
def Store.update (s : Store) (i : Nat) (p : PatchBody) : UpdateResult × Store :=
  (⟨s.tasks.countP (fun t => t.id == i)⟩,
   { s with tasks := s.tasks.map (fun t => if t.id == i then t.applyPatch p else t) })

/-- Modelled from the spec: `delete({id})` removes the row matching `id`
and returns the affected-row count (spec section 4.2). -/
def Store.delete (s : Store) (i : Nat) : DeleteResult × Store :=
  (⟨s.tasks.countP (fun t => t.id == i)⟩,
   { s with tasks := s.tasks.filter (fun t => !(t.id == i)) })

/-- A JSON value sent through `res.json(..)`: a string literal, a task,
a task array, or the raw caught error object. -/
inductive Body where
  | str : String → Body
  | task : Task → Body
  | tasks : List Task → Body
  | err : String → Body
  deriving Repr, DecidableEq

/-- One HTTP response sent by a handler: the status set by `res.status`
(200 when `res.json` is called without one) and the JSON body. -/
structure Response where
  status : Nat
  body : Body
  deriving Repr, DecidableEq

/-- Whether the awaited repository operation of this request completed, or
threw the given error (caught by the handler's `try`/`catch`). -/
inductive Outcome where
  | ok : Outcome
  | fail : String → Outcome
  deriving Repr, DecidableEq

/-- GET `/` (`src/routes/main.js` lines 81-88): `find()` all tasks,
`res.json(data)`; on a thrown error `res.status(500).json(error)`.
Returns the list of responses sent. -/
def getAllHandler (out : Outcome) (s : Store) : List Response :=
  match out with
  | .ok =>
      let data := s.find
      [{ status := 200, body := .tasks data }]
  | .fail e => [{ status := 500, body := .err e }]

/-- POST `/` (`src/routes/main.js` lines 89-107): `create` the record from
`title`, `description`, `dueDate` of the body, `save` it, respond 200 with
the saved task; on a thrown error respond 500 with the raw error.
Returns the responses sent and the resulting store. -/
def postHandler (out : Outcome) (b : PostBody) (s : Store) : List Response × Store :=
  match out with
  | .ok =>
      let record := Record.create b
      let saved := s.save record
      ([{ status := 200, body := .task saved.1 }], saved.2)
  | .fail e => ([{ status := 500, body := .err e }], s)

/-- GET `/:id` (`src/routes/main.js` lines 180-197): `findOne` by the path
id; if falsy, respond 404 `"Task not found"` and return; else
`res.json(task)`; on a thrown error respond 500 with the raw error. -/
def getByIdHandler (out : Outcome) (i : Nat) (s : Store) : List Response :=
  match out with
  | .ok =>
      match s.findOne i with
      | none => [{ status := 404, body := .str "Task not found" }]
      | some task => [{ status := 200, body := .task task }]
  | .fail e => [{ status := 500, body := .err e }]

/-- PATCH `/:id` (`src/routes/main.js` lines 198-216): `update` the row
matching the path id with the four body fields; if `result.affected === 0`
respond 404 `"Task not found"` and return; else respond 200
`"Task updated successfully"`; on a thrown error respond 500. -/
def patchHandler (out : Outcome) (i : Nat) (p : PatchBody) (s : Store) :
    List Response × Store :=
  match out with
  | .ok =>
      let result := s.update i p
      if result.1.affected == 0 then
        ([{ status := 404, body := .str "Task not found" }], result.2)
      else
        ([{ status := 200, body := .str "Task updated successfully" }], result.2)
  | .fail e => ([{ status := 500, body := .err e }], s)

/-- DELETE `/:id` (`src/routes/main.js` lines 217-228): `delete` the row
matching the path id; if `result.affected === 0` respond 404
`"Task not found"` and return; else respond 200
`"Task deleted successfully"`; on a thrown error respond 500. -/
def deleteHandler (out : Outcome) (i : Nat) (s : Store) : List Response × Store :=
  match out with
  | .ok =>
      let result := s.delete i
      if result.1.affected == 0 then
        ([{ status := 404, body := .str "Task not found" }], result.2)
      else
        ([{ status := 200, body := .str "Task deleted successfully" }], result.2)
  | .fail e => ([{ status := 500, body := .err e }], s)

/-- Store well-formedness: all row ids are pairwise distinct and below the
auto-increment counter. -/
def Store.Wf (s : Store) : Prop :=
  s.tasks.Pairwise (fun a b => a.id ≠ b.id) ∧ ∀ t ∈ s.tasks, t.id < s.nextId

instance (s : Store) : Decidable s.Wf := by
  unfold Store.Wf
  infer_instance

/-- C1: at `DELETE /1` on an empty store the delete reports 0 affected rows
and the handler responds 404 — but with body `"Task not found"`
(`src/routes/main.js` line 221), not the `"The task was not found"` stated
by the claim and by the route's own swagger annotation (line 175). -/
theorem delete_not_found_body_mismatch :
    deleteHandler .ok 1 { tasks := [], nextId := 1 } =
      ([{ status := 404, body := .str "Task not found" }],
       { tasks := [], nextId := 1 }) ∧
    ("Task not found" : String) ≠ "The task was not found" :=
  ⟨rfl, by decide⟩

/-- C3: for every error thrown by the awaited repository operation, each of
the five handlers catches it and sends exactly the 500 response whose body
is the raw error itself, leaving the store untouched. -/
theorem handlers_store_error_500 (e : String) (s : Store) (i : Nat)
    (b : PostBody) (p : PatchBody) :
    getAllHandler (.fail e) s = [{ status := 500, body := .err e }] ∧
    postHandler (.fail e) b s = ([{ status := 500, body := .err e }], s) ∧
    getByIdHandler (.fail e) i s = [{ status := 500, body := .err e }] ∧
    patchHandler (.fail e) i p s = ([{ status := 500, body := .err e }], s) ∧
    deleteHandler (.fail e) i s = ([{ status := 500, body := .err e }], s) :=
  ⟨rfl, rfl, rfl, rfl, rfl⟩

/-- C4: `GET /:id` answers 404 `"Task not found"` (and nothing else) when
`findOne` returns the not-found sentinel, and 200 with the found task
otherwise. -/
theorem getById_sentinel_404_else_task (i : Nat) (s : Store) :
    (s.findOne i = none →
      getByIdHandler .ok i s = [{ status := 404, body := .str "Task not found" }]) ∧
    (∀ t, s.findOne i = some t →
      getByIdHandler .ok i s = [{ status := 200, body := .task t }]) := by
  constructor
  · intro h
    simp [getByIdHandler, h]
  · intro t h
    simp [getByIdHandler, h]

/-- C4 witness: on the empty store, id 1 is absent and the handler sends
the single 404 response. -/
theorem getById_sentinel_404_else_task_witness :
    (Store.mk [] 1).findOne 1 = none ∧
    getByIdHandler .ok 1 (Store.mk [] 1) =
      [{ status := 404, body := .str "Task not found" }] :=
  ⟨rfl, (getById_sentinel_404_else_task 1 (Store.mk [] 1)).1 rfl⟩

/-- C5: `PATCH /:id` answers 404 `"Task not found"` when the update reports
0 affected rows, and 200 `"Task updated successfully"` when it reports a
nonzero count. -/
theorem patch_affected_statuses (i : Nat) (p : PatchBody) (s : Store) :
    ((s.update i p).1.affected = 0 →
      patchHandler .ok i p s =
        ([{ status := 404, body := .str "Task not found" }], (s.update i p).2)) ∧
    ((s.update i p).1.affected ≠ 0 →
      patchHandler .ok i p s =
        ([{ status := 200, body := .str "Task updated successfully" }],
         (s.update i p).2)) := by
  constructor
  · intro h
    simp [patchHandler, h]
  · intro h
    simp [patchHandler, h]

/-- C5 witness: on the empty store the update affects 0 rows and the
handler sends the 404. -/
theorem patch_affected_statuses_witness :
    ((Store.mk [] 1).update 1 (PatchBody.mk none none none none)).1.affected = 0 ∧
    patchHandler .ok 1 (PatchBody.mk none none none none) (Store.mk [] 1) =
      ([{ status := 404, body := .str "Task not found" }],
       ((Store.mk [] 1).update 1 (PatchBody.mk none none none none)).2) :=
  ⟨rfl, (patch_affected_statuses 1 (PatchBody.mk none none none none)
    (Store.mk [] 1)).1 rfl⟩

/-- C6: `GET /` answers 200 with exactly the array `find()` returns; on an
empty store the body is the empty array. -/
theorem getAll_returns_find (s : Store) :
    getAllHandler .ok s = [{ status := 200, body := .tasks s.find }] ∧
    (s.tasks = [] →
      getAllHandler .ok s = [{ status := 200, body := .tasks [] }]) := by
  refine ⟨rfl, fun h => ?_⟩
  simp [getAllHandler, Store.find, h]

/-- C6 witness: the empty store yields the single `200 []` response. -/
theorem getAll_returns_find_witness :
    (Store.mk [] 1).tasks = [] ∧
    getAllHandler .ok (Store.mk [] 1) = [{ status := 200, body := .tasks [] }] :=
  ⟨rfl, (getAll_returns_find (Store.mk [] 1)).2 rfl⟩

/-- C2: a PATCH on the id of a stored task answers 200
`"Task updated successfully"`, rewrites exactly the matching row by the
supplied fields (an unsupplied field keeps its old value, a supplied one
takes the supplied value, on every row it touches), and every row with a
different id is still stored unchanged. -/
theorem patch_updates_only_supplied_fields (i : Nat) (p : PatchBody)
    (s : Store) (t : Task) (ht : t ∈ s.tasks) (hid : t.id = i) :
    (patchHandler .ok i p s).1 =
      [{ status := 200, body := .str "Task updated successfully" }] ∧
    (patchHandler .ok i p s).2.tasks =
      s.tasks.map (fun u => if u.id == i then u.applyPatch p else u) ∧
    (∀ u ∈ s.tasks, u.id ≠ i → u ∈ (patchHandler .ok i p s).2.tasks) ∧
    (∀ u : Task,
      (u.applyPatch p).id = u.id ∧
      (p.title = none → (u.applyPatch p).title = u.title) ∧
      (∀ v, p.title = some v → (u.applyPatch p).title = v) ∧
      (p.description = none → (u.applyPatch p).description = u.description) ∧
      (∀ v, p.description = some v → (u.applyPatch p).description = v) ∧
      (p.dueDate = none → (u.applyPatch p).dueDate = u.dueDate) ∧
      (∀ v, p.dueDate = some v → (u.applyPatch p).dueDate = some v) ∧
      (p.isFinished = none → (u.applyPatch p).isFinished = u.isFinished) ∧
      (∀ v, p.isFinished = some v → (u.applyPatch p).isFinished = v)) := by
  have hpos : 0 < s.tasks.countP (fun u => u.id == i) :=
    List.countP_pos_iff.mpr ⟨t, ht, by simp [hid]⟩
  have hne : (s.update i p).1.affected ≠ 0 := by
    show s.tasks.countP (fun u => u.id == i) ≠ 0
    omega
  have h2 : (patchHandler .ok i p s).2 = (s.update i p).2 := by
    by_cases h : (s.update i p).1.affected = 0 <;> simp [patchHandler, h]
  refine ⟨by simp [patchHandler, hne], ?_, ?_, ?_⟩
  · rw [h2]
    rfl
  · intro u hu hui
    rw [h2]
    show u ∈ s.tasks.map fun v => if v.id == i then v.applyPatch p else v
    exact List.mem_map.mpr ⟨u, hu, by simp [hui]⟩
  · intro u
    refine ⟨rfl, ?_, ?_, ?_, ?_, ?_, ?_, ?_, ?_⟩ <;>
      first
        | (intro h; simp [Task.applyPatch, h])
        | (intro v h; simp [Task.applyPatch, h])

/-- C2 witness: patching the title of the single stored task with id 1
answers the single 200 success response. -/
theorem patch_updates_only_supplied_fields_witness :
    (Task.mk 1 "a" "b" none false) ∈ (Store.mk [Task.mk 1 "a" "b" none false] 2).tasks ∧
    (patchHandler .ok 1 (PatchBody.mk (some "new") none none none)
        (Store.mk [Task.mk 1 "a" "b" none false] 2)).1 =
      [{ status := 200, body := .str "Task updated successfully" }] :=
  ⟨by decide,
   (patch_updates_only_supplied_fields 1 (PatchBody.mk (some "new") none none none)
     (Store.mk [Task.mk 1 "a" "b" none false] 2)
     (Task.mk 1 "a" "b" none false) (by decide) rfl).1⟩

/-- C7: when no stored row already carries the store's next fresh id, a
successful POST answers 200 with a saved task whose title, description and
dueDate are the posted ones and whose isFinished is false, and a GET on
the returned id then answers 200 with that same task. -/
theorem post_then_get_roundtrip (b : PostBody) (s : Store)
    (hfresh : ∀ u ∈ s.tasks, u.id ≠ s.nextId) :
    ∃ t : Task, ∃ s2 : Store,
      postHandler .ok b s = ([{ status := 200, body := .task t }], s2) ∧
      getByIdHandler .ok t.id s2 = [{ status := 200, body := .task t }] ∧
      t.title = b.title ∧ t.description = b.description ∧
      t.dueDate = b.dueDate ∧ t.isFinished = false := by
  refine ⟨(s.save (Record.create b)).1, (s.save (Record.create b)).2,
    rfl, ?_, rfl, rfl, rfl, rfl⟩
  have h1 : s.tasks.find? (fun u => u.id == s.nextId) = none :=
    List.find?_eq_none.mpr (fun x hx => by simp [hfresh x hx])
  have hfind : (s.save (Record.create b)).2.findOne (s.save (Record.create b)).1.id
      = some (s.save (Record.create b)).1 := by
    show (s.tasks ++ [(s.save (Record.create b)).1]).find?
        (fun u => u.id == s.nextId) = some (s.save (Record.create b)).1
    rw [List.find?_append, h1]
    simp [Store.save]
  simp [getByIdHandler, hfind]

/-- C7 witness: posting the spec's example body on the empty store then
fetching the returned id round-trips. -/
theorem post_then_get_roundtrip_witness :
    (∀ u ∈ (Store.mk [] 1).tasks, u.id ≠ (Store.mk [] 1).nextId) ∧
    (∃ t : Task, ∃ s2 : Store,
      postHandler .ok (PostBody.mk "Workout" "jumping jacks" none none none)
          (Store.mk [] 1) =
        ([{ status := 200, body := .task t }], s2) ∧
      getByIdHandler .ok t.id s2 = [{ status := 200, body := .task t }] ∧
      t.title = "Workout" ∧ t.description = "jumping jacks" ∧
      t.dueDate = none ∧ t.isFinished = false) :=
  ⟨by decide,
   post_then_get_roundtrip (PostBody.mk "Workout" "jumping jacks" none none none)
     (Store.mk [] 1) (by decide)⟩

/-- C8: a patch never changes any row id (`applyPatch` keeps `id`, and the
updated table has the same id sequence), and on a well-formed store — all
ids distinct and below the auto-increment counter — PATCH, DELETE and POST
each leave the store well-formed, so ids stay unique. -/
theorem id_immutable_and_unique (i : Nat) (p : PatchBody) (b : PostBody)
    (s : Store) (hwf : s.Wf) :
    (∀ u : Task, (u.applyPatch p).id = u.id) ∧
    (patchHandler .ok i p s).2.tasks.map Task.id = s.tasks.map Task.id ∧
    ((patchHandler .ok i p s).2).Wf ∧
    ((deleteHandler .ok i s).2).Wf ∧
    ((postHandler .ok b s).2).Wf := by
  have hfid : ∀ u : Task, (if u.id == i then u.applyPatch p else u).id = u.id := by
    intro u
    by_cases h : u.id == i <;> simp [h, Task.applyPatch]
  have hpatch2 : (patchHandler .ok i p s).2 = (s.update i p).2 := by
    by_cases h : (s.update i p).1.affected = 0 <;> simp [patchHandler, h]
  have hdel2 : (deleteHandler .ok i s).2 = (s.delete i).2 := by
    by_cases h : (s.delete i).1.affected = 0 <;> simp [deleteHandler, h]
  have hids : ((s.update i p).2).tasks.map Task.id = s.tasks.map Task.id := by
    show (s.tasks.map fun u => if u.id == i then u.applyPatch p else u).map Task.id
        = s.tasks.map Task.id
    rw [List.map_map]
    exact List.map_congr_left (fun u _ => hfid u)
  refine ⟨fun u => rfl, by rw [hpatch2]; exact hids, ?_, ?_, ?_⟩
  · rw [hpatch2]
    constructor
    · show (s.tasks.map fun u => if u.id == i then u.applyPatch p else u).Pairwise _
      rw [List.pairwise_map]
      refine hwf.1.imp ?_
      intro a b hab
      rw [hfid a, hfid b]
      exact hab
    · intro t htm
      show t.id < s.nextId
      rcases List.mem_map.mp htm with ⟨u, hu, hut⟩
      rw [← hut, hfid u]
      exact hwf.2 u hu
  · rw [hdel2]
    constructor
    · exact hwf.1.sublist (List.filter_sublist s.tasks)
    · intro t htm
      show t.id < s.nextId
      exact hwf.2 t (List.mem_filter.mp htm).1
  · constructor
    · show (s.tasks ++ [(s.save (Record.create b)).1]).Pairwise _
      rw [List.pairwise_append]
      refine ⟨hwf.1, List.pairwise_singleton _ _, ?_⟩
      intro a ha b' hb'
      rw [List.mem_singleton.mp hb']
      show a.id ≠ s.nextId
      exact Nat.ne_of_lt (hwf.2 a ha)
    · intro t htm
      show t.id < s.nextId + 1
      rcases List.mem_append.mp htm with h | h
      · exact Nat.lt_succ_of_lt (hwf.2 t h)
      · rw [List.mem_singleton.mp h]
        exact Nat.lt_succ_self _
  -- the saved task's id is the old counter, below the bumped counter

/-- C8 witness: on a well-formed one-task store, POST preserves
well-formedness. -/
theorem id_immutable_and_unique_witness :
    (Store.mk [Task.mk 0 "a" "b" none false] 1).Wf ∧
    ((postHandler .ok (PostBody.mk "t" "d" none none none)
        (Store.mk [Task.mk 0 "a" "b" none false] 1)).2).Wf :=
  ⟨by decide,
   (id_immutable_and_unique 0 (PatchBody.mk none none none none)
     (PostBody.mk "t" "d" none none none)
     (Store.mk [Task.mk 0 "a" "b" none false] 1) (by decide)).2.2.2.2⟩

/-- C9: the POST handler reads only `title`, `description` and `dueDate`
from the body — two bodies agreeing on those three fields produce the same
response and store whatever `id`/`isFinished` the client also sent — and
the created task always has the fresh store id and `isFinished = false`. -/
theorem post_ignores_body_id_and_isFinished (b b' : PostBody) (s : Store)
    (hT : b.title = b'.title) (hD : b.description = b'.description)
    (hDue : b.dueDate = b'.dueDate) :
    postHandler .ok b s = postHandler .ok b' s ∧
    (postHandler .ok b s).1 =
      [{ status := 200,
         body := .task (Task.mk s.nextId b.title b.description b.dueDate false) }] := by
  have hrec : Record.create b = Record.create b' := by
    simp [Record.create, hT, hD, hDue]
  exact ⟨by simp [postHandler, hrec], rfl⟩

/-- C9 witness: a body smuggling `id := 99` and `isFinished := true` acts
exactly like the clean body with the same three read fields. -/
theorem post_ignores_body_id_and_isFinished_witness :
    postHandler .ok (PostBody.mk "x" "y" none (some 99) (some true)) (Store.mk [] 1) =
      postHandler .ok (PostBody.mk "x" "y" none none none) (Store.mk [] 1) :=
  (post_ignores_body_id_and_isFinished
    (PostBody.mk "x" "y" none (some 99) (some true))
    (PostBody.mk "x" "y" none none none) (Store.mk [] 1) rfl rfl rfl).1

/-- C10: on every execution path each handler sends exactly one response;
in particular the 404 branches of the three `/:id` handlers return right
after sending, so 404, 200 and 500 are mutually exclusive. -/
theorem handlers_send_exactly_one_response (out : Outcome) (i : Nat)
    (p : PatchBody) (b : PostBody) (s : Store) :
    (getAllHandler out s).length = 1 ∧
    (postHandler out b s).1.length = 1 ∧
    (getByIdHandler out i s).length = 1 ∧
    ((patchHandler out i p s).1).length = 1 ∧
    ((deleteHandler out i s).1).length = 1 := by
  cases out with
  | ok =>
      refine ⟨rfl, rfl, ?_, ?_, ?_⟩
      · unfold getByIdHandler
        cases s.findOne i <;> rfl
      · by_cases h : (s.update i p).1.affected = 0 <;>
          simp [patchHandler, h]
      · by_cases h : (s.delete i).1.affected = 0 <;>
          simp [deleteHandler, h]
  | fail e => exact ⟨rfl, rfl, rfl, rfl, rfl⟩

end Todo
